import Mathlib

/-!
Verification development for the cnLab repository: raw ICMP/IP packet
construction (assignment_10/icmpTimestamp.c, assignment_12/icmp_flood.c)
and captured-frame classification (assignment_13/analyzer.c, parser.c).

Buffers are modelled as lists of byte values (natural numbers; every read
masks with 256, matching the u_char / unsigned short views the C code
takes of its buffers).  Machine integers are modelled as Nat with explicit
mod-2^16 / mod-2^32 narrowing where the C code narrows.
-/

namespace CnLab

/-- The running 16-bit-word sum accumulated by the while-loop of
`checksum` (icmpTimestamp.c:20-28) / `csum` (icmp_flood.c:21-29): the
buffer is read two bytes at a time as a native-order (little-endian)
unsigned short, and a final odd byte is read as the low byte of a
zero-padded 16-bit word. -/
def wordSum : List Nat → Nat
  | [] => 0
  | [b] => b % 256
  | b0 :: b1 :: rest => (b0 % 256 + 256 * (b1 % 256)) + wordSum rest

/-- Carry folding as the spec words it: repeatedly add the overflow above
16 bits back into the low 16 bits until no carry remains.  Fuel-indexed so
that it is structurally recursive; `specFold` supplies enough fuel. -/
def foldCarry : Nat → Nat → Nat
  | 0, s => s
  | fuel + 1, s => if s < 65536 then s else foldCarry fuel (s / 65536 + s % 65536)

/-- Fold carries above 16 bits back into the low 16 bits until none
remain.  Each fold strictly decreases any sum that is at least 2^16, so
`s` itself is always enough fuel. -/
def specFold (s : Nat) : Nat := foldCarry s s

/-- The checksum routine of icmpTimestamp.c:14-35, modelled on the byte
range it is applied to: a 64-bit word sum, exactly two carry-folding
steps (line 30 masks the low part, line 31 does not), and the bitwise
complement narrowed to 16 bits by the cast through short. -/
def checksum (bs : List Nat) : Nat :=
  let sum := wordSum bs
  let sum1 := sum / 65536 + sum % 65536
  let sum2 := sum1 + sum1 / 65536
  65535 - sum2 % 65536

/-- The csum routine of icmp_flood.c:15-36; it is textually the same
algorithm as `checksum`. -/
def csum (bs : List Nat) : Nat := checksum bs

/-- The checksum as the specification words it (claim C1): the bitwise
NOT, narrowed to 16 bits, of the word sum with all carries above 16 bits
folded back into the low 16 bits. -/
def specChecksum (bs : List Nat) : Nat := 65535 - specFold (wordSum bs)

/-! ## Arithmetic facts about carry folding -/

theorem foldCarry_closed : ∀ fuel s, 0 < s → s ≤ fuel + 65535 →
    foldCarry fuel s = (s - 1) % 65535 + 1 := by
  intro fuel
  induction fuel with
  | zero =>
    intro s hs hle
    simp only [foldCarry]
    omega
  | succ n ih =>
    intro s hs hle
    simp only [foldCarry]
    by_cases h : s < 65536
    · simp only [if_pos h]
      omega
    · simp only [if_neg h]
      have hq : 65536 * (s / 65536) + s % 65536 = s := Nat.div_add_mod s 65536
      have hq1 : 1 ≤ s / 65536 := by omega
      have hr : s % 65536 < 65536 := Nat.mod_lt _ (by norm_num)
      have hpos : 0 < s / 65536 + s % 65536 := by omega
      have hle2 : s / 65536 + s % 65536 ≤ n + 65535 := by omega
      rw [ih _ hpos hle2]
      omega

/-- Closed form of full carry folding: a positive sum folds to the unique
value in [1, 65535] congruent to it modulo 65535. -/
theorem specFold_closed (s : Nat) (hs : 0 < s) :
    specFold s = (s - 1) % 65535 + 1 :=
  foldCarry_closed s s hs (by omega)

theorem specFold_zero : specFold 0 = 0 := rfl

/-- For word sums below 2^32 the two folding steps hard-coded in the C
routine agree with folding until no carry remains; the final narrowing
then gives the complement of the fully folded sum. -/
theorem checksum_eq_specChecksum_of_lt (bs : List Nat)
    (h : wordSum bs < 4294967296) : checksum bs = specChecksum bs := by
  simp only [checksum, specChecksum]
  rcases Nat.eq_zero_or_pos (wordSum bs) with h0 | hpos
  · rw [h0, specFold_zero]
  · rw [specFold_closed _ hpos]
    have hq : 65536 * (wordSum bs / 65536) + wordSum bs % 65536 = wordSum bs :=
      Nat.div_add_mod _ 65536
    have hr : wordSum bs % 65536 < 65536 := Nat.mod_lt _ (by norm_num)
    set s := wordSum bs with hs
    set q := s / 65536 with hqd
    set r := s % 65536 with hrd
    have hqle : q ≤ 65535 := by omega
    by_cases hcase : q + r < 65536
    · have hd2 : (q + r) / 65536 = 0 := Nat.div_eq_of_lt hcase
      have hm : (q + r + (q + r) / 65536) % 65536 = q + r := by
        rw [hd2]; simpa using Nat.mod_eq_of_lt hcase
      rw [hm]
      omega
    · have hd2 : (q + r) / 65536 = 1 := by omega
      have hm : (q + r + (q + r) / 65536) % 65536 = q + r + 1 - 65536 := by
        rw [hd2]; omega
      rw [hm]
      omega

/-! ## Word-sum structure lemmas -/

theorem wordSum_append (l2 : List Nat) :
    ∀ l1 : List Nat, l1.length % 2 = 0 →
      wordSum (l1 ++ l2) = wordSum l1 + wordSum l2
  | [], _ => by simp [wordSum]
  | [b], h => by simp at h
  | b0 :: b1 :: t, h => by
    have ht : t.length % 2 = 0 := by
      simp only [List.length_cons] at h
      omega
    have ih := wordSum_append l2 t ht
    simp only [List.cons_append]
    rw [wordSum, ih, wordSum]
    omega

theorem wordSum_replicate_ff : ∀ n, wordSum (List.replicate (2 * n) 255) = n * 65535
  | 0 => rfl
  | n + 1 => by
    have h : 2 * (n + 1) = (2 * n) + 1 + 1 := by omega
    rw [h, List.replicate_succ, List.replicate_succ]
    show wordSum (255 :: 255 :: List.replicate (2 * n) 255) = (n + 1) * 65535
    rw [wordSum, wordSum_replicate_ff n]
    omega

theorem wordSum_replicate_zero : ∀ n, wordSum (List.replicate (2 * n) 0) = 0
  | 0 => rfl
  | n + 1 => by
    have h : 2 * (n + 1) = (2 * n) + 1 + 1 := by omega
    rw [h, List.replicate_succ, List.replicate_succ]
    show wordSum (0 :: 0 :: List.replicate (2 * n) 0) = 0
    rw [wordSum, wordSum_replicate_zero n]

theorem wordSum_two_mul_le (bs : List Nat) : 2 * wordSum bs ≤ 65535 * bs.length := by
  induction bs using wordSum.induct with
  | case1 => simp [wordSum]
  | case2 b =>
    simp only [wordSum, List.length_cons]
    have h0 : b % 256 < 256 := Nat.mod_lt _ (by norm_num)
    omega
  | case3 b0 b1 rest ih =>
    simp only [wordSum, List.length_cons]
    have h0 : b0 % 256 < 256 := Nat.mod_lt _ (by norm_num)
    have h1 : b1 % 256 < 256 := Nat.mod_lt _ (by norm_num)
    omega

theorem checksum_le (bs : List Nat) : checksum bs ≤ 65535 := by
  simp only [checksum]
  omega

/-- Transport lemma: once the word sum of a buffer is known, the checksum
is the corresponding literal arithmetic, with no further evaluation of
the buffer itself. -/
theorem checksum_eq_of_wordSum (bs : List Nat) (v : Nat) (h : wordSum bs = v) :
    checksum bs =
      65535 - ((v / 65536 + v % 65536) + (v / 65536 + v % 65536) / 65536) % 65536 := by
  simp only [checksum, h]

/-- Transport lemma for the specification-side checksum. -/
theorem specChecksum_eq_of_wordSum (bs : List Nat) (v : Nat) (h : wordSum bs = v) :
    specChecksum bs = 65535 - specFold v := by
  simp only [specChecksum, h]

/-- Word sum of the byte range used in the C1 and C3 counterexamples:
65538 full words of 0xFFFF followed by the word 0x0001. -/
theorem wordSum_counterexample_core :
    wordSum (List.replicate 131076 255 ++ [1, 0]) = 4295032831 := by
  have hlen : (List.replicate 131076 255).length % 2 = 0 := by
    rw [List.length_replicate]
  rw [wordSum_append [1, 0] _ hlen]
  have h : (131076 : Nat) = 2 * 65538 := by norm_num
  rw [h, wordSum_replicate_ff]
  decide

/-! ## Claim C1 -/

/-- Claim C1, as stated, is false: on this 131078-byte range the word sum
is 4295032831, at least 2^32, and the two hard-coded folding steps of the
C routine leave a carry unfolded, so the returned value (0xFFFF) is not
the complement of the fully folded sum (which would be 0xFFFE). -/
theorem C1_counterexample :
    checksum (List.replicate 131076 255 ++ [1, 0]) ≠
      specChecksum (List.replicate 131076 255 ++ [1, 0]) := by
  have h1 : checksum (List.replicate 131076 255 ++ [1, 0]) = 65535 := by
    rw [checksum_eq_of_wordSum _ _ wordSum_counterexample_core]
  have h2 : specChecksum (List.replicate 131076 255 ++ [1, 0]) = 65534 := by
    rw [specChecksum_eq_of_wordSum _ _ wordSum_counterexample_core,
      specFold_closed _ (by norm_num)]
  rw [h1, h2]
  decide

/-- Claim C1 (amended): for every byte range of at most 131072 bytes
(more generally, whose 16-bit word sum is below 2^32), the checksum
function returns the bitwise NOT, narrowed to 16 bits, of the
carry-folded native-order word sum, with an odd final byte treated as the
low byte of a zero-padded word. -/
theorem C1_checksum_matches_spec (bs : List Nat) (h : bs.length ≤ 131072) :
    checksum bs = specChecksum bs := by
  apply checksum_eq_specChecksum_of_lt
  have hb := wordSum_two_mul_le bs
  omega

theorem C1_checksum_matches_spec_witness :
    ([1, 2, 3] : List Nat).length ≤ 131072 ∧
      checksum [1, 2, 3] = specChecksum [1, 2, 3] :=
  ⟨by decide, C1_checksum_matches_spec [1, 2, 3] (by decide)⟩

/-! ## Claim C7 -/

/-- Claim C7: for every even-length all-zero input buffer, including the
empty buffer, the checksum function returns 0xFFFF, the 16-bit complement
of zero. -/
theorem C7_checksum_zero_buffer (n : Nat) :
    checksum (List.replicate (2 * n) 0) = 65535 := by
  simp only [checksum, wordSum_replicate_zero n]

/-! ## Claim C3 -/

/-- Claim C3, as stated, is false on sufficiently long buffers, for the
same reason as C1: for this buffer (the counterexample range of C1 with a
trailing zeroed 16-bit checksum field) the computed checksum is 0xFFFF,
and re-running the summation over the buffer with 0xFFFF written into the
field yields 0xFFFF rather than 0. -/
theorem C3_counterexample :
    checksum ((List.replicate 131076 255 ++ [1, 0]) ++
      [checksum ((List.replicate 131076 255 ++ [1, 0]) ++ [0, 0]) % 256,
       checksum ((List.replicate 131076 255 ++ [1, 0]) ++ [0, 0]) / 256 % 256]) ≠ 0 := by
  have hlen : (List.replicate 131076 255 ++ [1, 0]).length % 2 = 0 := by
    rw [List.length_append, List.length_replicate]
    decide
  have hin : wordSum ((List.replicate 131076 255 ++ [1, 0]) ++ [0, 0]) = 4295032831 := by
    rw [wordSum_append [0, 0] _ hlen, wordSum_counterexample_core]
    decide
  have hc : checksum ((List.replicate 131076 255 ++ [1, 0]) ++ [0, 0]) = 65535 := by
    rw [checksum_eq_of_wordSum _ _ hin]
  rw [hc]
  have hw2 : wordSum ((List.replicate 131076 255 ++ [1, 0]) ++
      [65535 % 256, 65535 / 256 % 256]) = 4295098366 := by
    rw [wordSum_append _ _ hlen, wordSum_counterexample_core]
    decide
  rw [checksum_eq_of_wordSum _ _ hw2]
  decide

/-- Claim C3 (amended): for every byte buffer `pre ++ field ++ suf` whose
designated 16-bit checksum field sits at an even (word-aligned) offset,
and whose zeroed-field word sum stays 65535 below 2^32 (every buffer of
at most ~131 KB), writing the computed checksum into the field and
re-running the 16-bit one-complement summation over the full buffer
yields 0. -/
theorem C3_apply_then_verify (pre suf : List Nat) (hpre : pre.length % 2 = 0)
    (hsz : wordSum (pre ++ ([0, 0] ++ suf)) + 65535 < 4294967296) :
    checksum (pre ++ ([checksum (pre ++ ([0, 0] ++ suf)) % 256,
        checksum (pre ++ ([0, 0] ++ suf)) / 256 % 256] ++ suf)) = 0 := by
  have h2 : ∀ a b : Nat, ([a, b] : List Nat).length % 2 = 0 := by
    intro a b
    rw [List.length_cons, List.length_cons, List.length_nil]
  have h00 : wordSum (pre ++ ([0, 0] ++ suf)) = wordSum pre + wordSum suf := by
    rw [wordSum_append _ pre hpre, wordSum_append suf [0, 0] (h2 0 0), wordSum]
    simp [wordSum]
  set c := checksum (pre ++ ([0, 0] ++ suf)) with hcdef
  have hcle : c ≤ 65535 := checksum_le _
  have hcb : wordSum [c % 256, c / 256 % 256] = c := by
    simp only [wordSum]
    omega
  have hw : wordSum (pre ++ ([c % 256, c / 256 % 256] ++ suf)) =
      wordSum pre + wordSum suf + c := by
    rw [wordSum_append _ pre hpre, wordSum_append suf _ (h2 _ _), hcb]
    omega
  have hszS : wordSum pre + wordSum suf + 65535 < 4294967296 := by omega
  have hcval : c = 65535 - specFold (wordSum pre + wordSum suf) := by
    rw [hcdef, checksum_eq_specChecksum_of_lt _ (by omega)]
    simp only [specChecksum, h00]
  rw [checksum_eq_specChecksum_of_lt _ (by omega)]
  simp only [specChecksum, hw]
  rcases Nat.eq_zero_or_pos (wordSum pre + wordSum suf) with h0 | hpos
  · rw [h0] at hcval ⊢
    rw [specFold_zero] at hcval
    rw [hcval]
    rw [specFold_closed _ (by norm_num)]
  · have hfold := specFold_closed _ hpos
    set S := wordSum pre + wordSum suf with hSdef
    have hSc : 0 < S + c := by omega
    rw [specFold_closed _ hSc]
    have hm : 65535 * ((S - 1) / 65535) + (S - 1) % 65535 = S - 1 :=
      Nat.div_add_mod _ 65535
    have hmlt : (S - 1) % 65535 < 65535 := Nat.mod_lt _ (by norm_num)
    have hfle : specFold S ≤ 65535 := by omega
    omega

theorem C3_apply_then_verify_witness :
    ([] : List Nat).length % 2 = 0 ∧
      wordSum (([] : List Nat) ++ ([0, 0] ++ [])) + 65535 < 4294967296 ∧
      checksum (([] : List Nat) ++ ([checksum (([] : List Nat) ++ ([0, 0] ++ [])) % 256,
        checksum (([] : List Nat) ++ ([0, 0] ++ [])) / 256 % 256] ++ [])) = 0 :=
  ⟨by decide, by decide, C3_apply_then_verify [] [] (by decide) (by decide)⟩

/-! ## Captured-frame dissection (assignment_13/analyzer.c) -/

/-- Result of classifying one captured frame, as printed by the handler in
analyzer.c:25-41 (one constructor per distinct output shape, plus the
TimestampRequest outcome that the specification of the dissect path names
in its step 4). -/
inductive LayerClass where
  | EchoRequest
  | EchoReply
  | TimestampRequest
  | OtherICMP (t : Nat)
  | TCP
  | UDP
  | OtherIP (p : Nat)
  | ARP
  | UnknownL2
deriving DecidableEq

/-- A captured frame buffer as the unchecked C code sees it: an unbounded
byte memory (the bytes past the captured length are whatever happens to
sit in memory there).  Every dereference masks to a byte. -/
def memOf (bs : List Nat) : Nat → Nat := fun i => bs.getD i 0

/-- The byte offsets that packet_handler (analyzer.c:11-42) dereferences
in the frame, in evaluation order: the Ethernet type field at 12..13;
when it denotes IPv4, the protocol byte at offset 23 and the
version/IHL byte at offset 14; when the protocol is ICMP, the ICMP type
byte just past the variable-length IP header.  The captured length is
never consulted. -/
def packet_handler_reads (mem : Nat → Nat) : List Nat :=
  [12, 13] ++
    (if (mem 12 % 256) * 256 + mem 13 % 256 = 2048 then
      [23] ++ (if mem 23 % 256 = 1 then [14, 14 + 4 * (mem 14 % 16)] else [])
    else [])

/-- The classification computed by packet_handler (analyzer.c:25-41):
dispatch on the Ethernet type (0x0800 IPv4 / 0x0806 ARP / other), then on
the IP protocol byte (1 ICMP / 6 TCP / 17 UDP / other), and for ICMP on
the type byte at offset 14 + 4 * IHL (8 echo request / 0 echo reply /
other).  The IHL nibble is the low half of byte 14 (little-endian
bitfield layout of struct ip). -/
def packet_handler_classify (mem : Nat → Nat) : LayerClass :=
  if (mem 12 % 256) * 256 + mem 13 % 256 = 2048 then
    if mem 23 % 256 = 1 then
      if mem (14 + 4 * (mem 14 % 16)) % 256 = 8 then .EchoRequest
      else if mem (14 + 4 * (mem 14 % 16)) % 256 = 0 then .EchoReply
      else .OtherICMP (mem (14 + 4 * (mem 14 % 16)) % 256)
    else if mem 23 % 256 = 6 then .TCP
    else if mem 23 % 256 = 17 then .UDP
    else .OtherIP (mem 23 % 256)
  else if (mem 12 % 256) * 256 + mem 13 % 256 = 2054 then .ARP
  else .UnknownL2

/-- ICMP-type classification exactly as claim C4 words it, including the
TimestampRequest case for type 13. -/
def spec_icmp_classify (t : Nat) : LayerClass :=
  if t = 8 then .EchoRequest
  else if t = 0 then .EchoReply
  else if t = 13 then .TimestampRequest
  else .OtherICMP t

/-- IP-protocol dispatch exactly as claim C4 words it. -/
def spec_ip_dispatch (proto t : Nat) : LayerClass :=
  if proto = 1 then spec_icmp_classify t
  else if proto = 6 then .TCP
  else if proto = 17 then .UDP
  else .OtherIP proto

/-- ICMP-type classification as the analyzer actually implements it:
no TimestampRequest case, so type 13 falls into the generic bucket. -/
def spec_icmp_classify_amended (t : Nat) : LayerClass :=
  if t = 8 then .EchoRequest
  else if t = 0 then .EchoReply
  else .OtherICMP t

/-- IP-protocol dispatch with the amended ICMP classification. -/
def spec_ip_dispatch_amended (proto t : Nat) : LayerClass :=
  if proto = 1 then spec_icmp_classify_amended t
  else if proto = 6 then .TCP
  else if proto = 17 then .UDP
  else .OtherIP proto

/-- A concrete Ethernet/IPv4/ICMP frame whose ICMP type byte (offset 34)
is 13: twelve MAC bytes, Ethernet type 0x0800, a 20-byte IP header with
version/IHL byte 0x45 and protocol byte 1 at offset 23, then the ICMP
type byte. -/
def frame_icmp13 : List Nat :=
  [0, 0, 0, 0, 0, 0, 0, 0, 0, 0, 0, 0, 8, 0,
   69, 0, 0, 0, 0, 0, 0, 0, 0, 1, 0, 0, 0, 0, 0, 0, 0, 0, 0, 0,
   13]

/-! ## Claim C4 -/

/-- Claim C4, as stated, is false: on an Ethernet/IPv4/ICMP frame whose
ICMP type byte is 13 the analyzer classifies OtherICMP 13 (its generic
"ICMP Type: %d" branch), not TimestampRequest as the claim requires: the
handler has no case for type 13. -/
theorem C4_counterexample :
    packet_handler_classify (memOf frame_icmp13) = .OtherICMP 13 ∧
      spec_ip_dispatch (memOf frame_icmp13 23 % 256)
        (memOf frame_icmp13 (14 + 4 * (memOf frame_icmp13 14 % 16)) % 256) =
        .TimestampRequest ∧
      packet_handler_classify (memOf frame_icmp13) ≠
        spec_ip_dispatch (memOf frame_icmp13 23 % 256)
          (memOf frame_icmp13 (14 + 4 * (memOf frame_icmp13 14 % 16)) % 256) := by
  refine ⟨by decide, by decide, by decide⟩

/-- Claim C4 (amended): for every captured frame carrying Ethernet/IPv4,
the handler dispatches on the IP protocol number (1 continues to the ICMP
layer, 6 classifies as TCP, 17 as UDP, anything else as OtherIP), and for
ICMP classifies the type byte as 8 EchoRequest, 0 EchoReply, and any
other value, including 13, as OtherICMP. -/
theorem C4_dispatch (mem : Nat → Nat) (h12 : mem 12 % 256 = 8)
    (h13 : mem 13 % 256 = 0) :
    packet_handler_classify mem =
      spec_ip_dispatch_amended (mem 23 % 256)
        (mem (14 + 4 * (mem 14 % 16)) % 256) := by
  simp only [packet_handler_classify, spec_ip_dispatch_amended,
    spec_icmp_classify_amended, h12, h13, if_true]

theorem C4_dispatch_witness :
    memOf frame_icmp13 12 % 256 = 8 ∧ memOf frame_icmp13 13 % 256 = 0 ∧
      packet_handler_classify (memOf frame_icmp13) =
        spec_ip_dispatch_amended (memOf frame_icmp13 23 % 256)
          (memOf frame_icmp13 (14 + 4 * (memOf frame_icmp13 14 % 16)) % 256) :=
  ⟨by decide, by decide, C4_dispatch (memOf frame_icmp13) (by decide) (by decide)⟩

/-! ## Claim C2 -/

/-- Claim C2 names a code bug: for every captured frame shorter than the
14-byte Ethernet header, the handler still dereferences the Ethernet type
field, so it reads an offset at or past the supplied buffer length
instead of returning a Truncated error; offset 13 is always among the
dereferenced offsets and is out of bounds for every length below 14. -/
theorem C2_reads_past_short_buffer (mem : Nat → Nat) (len : Nat) (h : len < 14) :
    ∃ off ∈ packet_handler_reads mem, len ≤ off := by
  refine ⟨13, ?_, by omega⟩
  simp only [packet_handler_reads, List.mem_append]
  left
  decide

theorem C2_reads_past_short_buffer_witness :
    (13 : Nat) < 14 ∧ ∃ off ∈ packet_handler_reads (memOf []), 13 ≤ off :=
  ⟨by decide, C2_reads_past_short_buffer (memOf []) 13 (by decide)⟩

/-! ## First-observed-timestamp baseline (analyzer.c:13-21) -/

/-- One invocation of the static-baseline update of packet_handler
(analyzer.c:16-19): the stored (start_sec, start_usec) pair is
overwritten by the timestamp of the current frame exactly when the stored
seconds value is still 0. -/
def tsStep (s : Int × Int) (t : Int × Int) : Int × Int :=
  if s.1 = 0 then t else s

/-- The zero-initialized statics before any decode call. -/
def tsInit : Int × Int := (0, 0)

/-- The relative time the handler reports for a frame with timestamp t
against baseline s (analyzer.c:21, kept as an exact pair of second and
microsecond differences rather than the printed double). -/
def relTime (s t : Int × Int) : Int × Int := (t.1 - s.1, t.2 - s.2)

/-- A whole capture session: for each frame, first run the baseline
update, then report the relative time against the updated baseline. -/
def runHandler (s : Int × Int) : List (Int × Int) → List (Int × Int)
  | [] => []
  | t :: ts => relTime (tsStep s t) t :: runHandler (tsStep s t) ts

theorem tsStep_fixed (s t : Int × Int) (h : s.1 ≠ 0) : tsStep s t = s :=
  if_neg h

theorem runHandler_fixed (s : Int × Int) (h : s.1 ≠ 0) :
    ∀ l : List (Int × Int), runHandler s l = l.map (relTime s)
  | [] => rfl
  | t :: ts => by
    rw [runHandler, tsStep_fixed s t h, runHandler_fixed s h ts, List.map_cons]

theorem foldl_tsStep_fixed (s : Int × Int) (h : s.1 ≠ 0) :
    ∀ l : List (Int × Int), List.foldl tsStep s l = s
  | [] => rfl
  | t :: ts => by
    rw [List.foldl_cons, tsStep_fixed s t h, foldl_tsStep_fixed s h ts]

/-! ## Claim C8 -/

/-- Claim C8, as stated, is false: a first frame whose capture timestamp
has seconds value 0 is written into the baseline, but leaves the zero
sentinel in start_sec, so the second decode call modifies the baseline
again, contradicting the claim that the baseline is never modified by any
later decode call. -/
theorem C8_counterexample :
    tsStep (tsStep tsInit ((0 : Int), (5 : Int))) ((100 : Int), (7 : Int)) ≠
      tsStep tsInit ((0 : Int), (5 : Int)) := by
  decide

/-- Claim C8 (amended): the baseline statics start as the zero pair, are
overwritten by the first decode call, and, provided the first frame's
seconds value is nonzero, are never modified by any later decode call of
the session; every frame's reported relative time is then computed
against that fixed baseline (the first frame's timestamp). -/
theorem C8_baseline_lifecycle (t0 : Int × Int) (rest : List (Int × Int))
    (h : t0.1 ≠ 0) :
    List.foldl tsStep tsInit (t0 :: rest) = t0 ∧
      runHandler tsInit (t0 :: rest) = (t0 :: rest).map (relTime t0) := by
  have hstep : tsStep tsInit t0 = t0 := if_pos rfl
  constructor
  · rw [List.foldl_cons, hstep, foldl_tsStep_fixed t0 h rest]
  · rw [runHandler, hstep, runHandler_fixed t0 h rest, List.map_cons]

theorem C8_baseline_lifecycle_witness :
    ((10 : Int), (0 : Int)).1 ≠ 0 ∧
      (List.foldl tsStep tsInit [((10 : Int), (0 : Int)), ((11 : Int), (5 : Int))] =
        ((10 : Int), (0 : Int)) ∧
      runHandler tsInit [((10 : Int), (0 : Int)), ((11 : Int), (5 : Int))] =
        [((10 : Int), (0 : Int)), ((11 : Int), (5 : Int))].map
          (relTime ((10 : Int), (0 : Int)))) :=
  ⟨by decide, C8_baseline_lifecycle ((10 : Int), (0 : Int))
    [((11 : Int), (5 : Int))] (by decide)⟩

/-! ## Raw ICMP flood datagram (assignment_12/icmp_flood.c) -/

/-- Store of a 16-bit value into a byte buffer at offset off, low byte
first (the little-endian unsigned-short store the C performs). -/
def set16le (d : List Nat) (off v : Nat) : List Nat :=
  (d.set off (v % 256)).set (off + 1) (v / 256 % 256)

/-- htons: swap the two bytes of a 16-bit value. -/
def hton16 (v : Nat) : Nat := (v % 256) * 256 + (v / 256) % 256

/-- Write a list of bytes at consecutive offsets (the 4-byte
network-order source-address store of icmp_flood.c:97). -/
def setRange (d : List Nat) (off : Nat) : List Nat → List Nat
  | [] => d
  | b :: bs => setRange (d.set off b) (off + 1) bs

/-- The host-order u16 read of the total-length field at bytes 2..3
(the `iph->tot_len` argument of icmp_flood.c:108). -/
def totLen (d : List Nat) : Nat := d.getD 2 0 % 256 + 256 * (d.getD 3 0 % 256)

/-- The first 28 bytes of the 4096-byte datagram after the configuration
section of main (icmp_flood.c:53-82): version/IHL byte 0x45, TOS 0,
total length 28 stored without htons (so little-endian, bytes 28,0),
id htons(12345) (bytes 0x30,0x39), fragment offset 0, TTL 255, protocol
1, checksum 0, source address still the memset zeros (it is only
assigned inside the loop), then the destination-address bytes, then the
ICMP header: type 8, code 0, checksum 0, id htons(pid), sequence 0.
Bytes 28..4095 stay zero and are never read or written afterwards. -/
def initDatagram (pid : Nat) (dst : List Nat) : List Nat :=
  [69, 0, 28, 0, 48, 57, 0, 0, 255, 1, 0, 0,
   0, 0, 0, 0] ++ dst ++
  [8, 0, 0, 0, pid % 65536 / 256, pid % 256, 0, 0]

/-- The fixed spoofed-source pool of icmp_flood.c:47, as the
network-order byte quadruples inet_addr produces. -/
def spoofed_ips : List (List Nat) :=
  [[10, 0, 0, 3], [10, 0, 0, 4], [10, 0, 0, 5], [10, 0, 0, 6]]

/-- Loop state after icmp_flood.c:97-103: spoofed source address written
at bytes 12..15, new sequence number htons(seq % 65535) at bytes 26..27,
ICMP checksum field zeroed at bytes 22..23. -/
def floodPre (d : List Nat) (src : List Nat) (seq : Nat) : List Nat :=
  set16le (set16le (setRange d 12 src) 26 (hton16 (seq % 65535))) 22 0

/-- The byte range handed to csum for the ICMP checksum
(icmp_flood.c:104): the 8 bytes starting at the ICMP header. -/
def icmpCsumInput (d : List Nat) (src : List Nat) (seq : Nat) : List Nat :=
  ((floodPre d src seq).drop 20).take 8

/-- Loop state after icmp_flood.c:104-107: ICMP checksum written at
bytes 22..23, IP checksum field zeroed at bytes 10..11. -/
def floodMid (d : List Nat) (src : List Nat) (seq : Nat) : List Nat :=
  set16le (set16le (floodPre d src seq) 22 (csum (icmpCsumInput d src seq))) 10 0

/-- The byte range handed to csum for the IP checksum (icmp_flood.c:108):
the first `iph->tot_len` bytes of the datagram, which is the IP header
followed by the whole ICMP header. -/
def ipCsumInput (d : List Nat) (src : List Nat) (seq : Nat) : List Nat :=
  (floodMid d src seq).take (totLen (floodMid d src seq))

/-- One full iteration of the send loop (icmp_flood.c:94-113): the
datagram in the state passed to sendto. -/
def floodStep (d : List Nat) (src : List Nat) (seq : Nat) : List Nat :=
  set16le (floodMid d src seq) 10 (csum (ipCsumInput d src seq))

/-! ## Read-after-write helpers -/

theorem getD_set_of_ne (a dflt : Nat) :
    ∀ (l : List Nat) (i j : Nat), i ≠ j →
      (l.set i a).getD j dflt = l.getD j dflt
  | [], _, _, _ => rfl
  | _ :: _, 0, 0, h => absurd rfl h
  | _ :: _, 0, _ + 1, _ => rfl
  | _ :: _, _ + 1, 0, _ => rfl
  | x :: t, i + 1, j + 1, h => by
    have ih := getD_set_of_ne a dflt t i j (by omega)
    simpa [List.getD_cons_succ] using ih

theorem getD_set16le_ne (d : List Nat) (off v j : Nat) (h1 : off ≠ j)
    (h2 : off + 1 ≠ j) : (set16le d off v).getD j 0 = d.getD j 0 := by
  unfold set16le
  rw [getD_set_of_ne _ _ _ _ _ h2, getD_set_of_ne _ _ _ _ _ h1]

theorem getD_setRange_ne :
    ∀ (bs d : List Nat) (off j : Nat), (j < off ∨ off + bs.length ≤ j) →
      (setRange d off bs).getD j 0 = d.getD j 0
  | [], _, _, _, _ => rfl
  | b :: bs, d, off, j, h => by
    rw [setRange]
    rw [getD_setRange_ne bs _ (off + 1) j
      (by simp only [List.length_cons] at h; omega)]
    rw [getD_set_of_ne _ _ _ _ _ (by simp only [List.length_cons] at h; omega)]

/-- Read-after-write through one whole loop iteration: every byte offset
outside the source address (12..15), the sequence number (26..27), the
ICMP checksum (22..23) and the IP checksum (10..11) is untouched. -/
theorem floodStep_preserves (d src : List Nat) (hsrc : src.length = 4)
    (seq i : Nat)
    (hi : i ∉ ([10, 11, 12, 13, 14, 15, 22, 23, 26, 27] : List Nat)) :
    (floodStep d src seq).getD i 0 = d.getD i 0 := by
  simp only [List.mem_cons, List.not_mem_nil, or_false, not_or] at hi
  obtain ⟨n10, n11, n12, n13, n14, n15, n22, n23, n26, n27⟩ := hi
  rw [floodStep, getD_set16le_ne _ _ _ _ (by omega) (by omega),
    floodMid, getD_set16le_ne _ _ _ _ (by omega) (by omega),
    getD_set16le_ne _ _ _ _ (by omega) (by omega),
    floodPre, getD_set16le_ne _ _ _ _ (by omega) (by omega),
    getD_set16le_ne _ _ _ _ (by omega) (by omega),
    getD_setRange_ne _ _ _ _ (by rw [hsrc]; omega)]

theorem foldl_floodStep_preserves (i : Nat)
    (hi : i ∉ ([10, 11, 12, 13, 14, 15, 22, 23, 26, 27] : List Nat)) :
    ∀ (inputs : List (List Nat × Nat)) (d : List Nat),
      (∀ p ∈ inputs, p.1.length = 4) →
      (inputs.foldl (fun dg p => floodStep dg p.1 p.2) d).getD i 0 = d.getD i 0
  | [], _, _ => rfl
  | p :: ps, d, h => by
    rw [List.foldl_cons]
    rw [foldl_floodStep_preserves i hi ps _ (fun q hq => h q (List.mem_cons_of_mem p hq))]
    exact floodStep_preserves d p.1 (h p (List.mem_cons_self p ps)) p.2 i
      (by simpa using hi)

/-! ## Claim C9 -/

/-- Claim C9: across every sequence of iterations of the flood send loop,
only the IP source address (bytes 12..15), the ICMP echo sequence number
(bytes 26..27) and the two checksum fields (bytes 10..11 and 22..23) of
the datagram change; every other byte of the configured headers, hence
every other configured field (version/IHL, TOS, total length,
identification, fragment offset, TTL, protocol, destination address,
ICMP type, code, identifier), keeps the value set before the loop. -/
theorem C9_only_mutable_fields_change (pid : Nat) (dst : List Nat)
    (inputs : List (List Nat × Nat)) (hsrc : ∀ p ∈ inputs, p.1.length = 4)
    (i : Nat)
    (hi : i ∉ ([10, 11, 12, 13, 14, 15, 22, 23, 26, 27] : List Nat)) :
    (inputs.foldl (fun dg p => floodStep dg p.1 p.2) (initDatagram pid dst)).getD i 0
      = (initDatagram pid dst).getD i 0 :=
  foldl_floodStep_preserves i hi inputs (initDatagram pid dst) hsrc

theorem C9_only_mutable_fields_change_witness :
    (∀ p ∈ ([([10, 0, 0, 3], 7)] : List (List Nat × Nat)), p.1.length = 4) ∧
      (20 : Nat) ∉ ([10, 11, 12, 13, 14, 15, 22, 23, 26, 27] : List Nat) ∧
      (([([10, 0, 0, 3], 7)] : List (List Nat × Nat)).foldl
          (fun dg p => floodStep dg p.1 p.2)
          (initDatagram 1234 [10, 0, 0, 9])).getD 20 0
        = (initDatagram 1234 [10, 0, 0, 9]).getD 20 0 :=
  ⟨by decide, by decide,
    C9_only_mutable_fields_change 1234 [10, 0, 0, 9] [([10, 0, 0, 3], 7)]
      (by decide) 20 (by decide)⟩

/-! ## Claim C6 -/

/-- Claim C6, as stated, is false: in a packet produced by the encode
path the total-length field holds the value 28 = ip_header_size +
icmp_header_size, but it is stored without htons (icmp_flood.c:69), so
its bytes are 28,0 (little-endian host order) rather than the
network-byte-order 0,28 the claim requires. -/
theorem C6_counterexample :
    (floodStep (initDatagram 1234 [10, 0, 0, 9]) [10, 0, 0, 3] 5).getD 2 0 = 28 ∧
      (floodStep (initDatagram 1234 [10, 0, 0, 9]) [10, 0, 0, 3] 5).getD 3 0 = 0 ∧
      ¬ ((floodStep (initDatagram 1234 [10, 0, 0, 9]) [10, 0, 0, 3] 5).getD 2 0 = 0 ∧
        (floodStep (initDatagram 1234 [10, 0, 0, 9]) [10, 0, 0, 3] 5).getD 3 0 = 28) := by
  refine ⟨by decide, by decide, by decide⟩

/-- Claim C6 (amended): in every packet produced by the encode path the
total-length field is set to 28 = ip_header_size + icmp_header_size, the
exact byte count of the encoded header chain, but it is stored in host
(little-endian) byte order — byte 2 holds 28 and byte 3 holds 0 — unlike
the identification field, which is converted with htons. -/
theorem C6_total_length_host_order (pid : Nat) (dst : List Nat)
    (inputs : List (List Nat × Nat)) (hsrc : ∀ p ∈ inputs, p.1.length = 4) :
    (inputs.foldl (fun dg p => floodStep dg p.1 p.2) (initDatagram pid dst)).getD 2 0
        = 28 ∧
      (inputs.foldl (fun dg p => floodStep dg p.1 p.2) (initDatagram pid dst)).getD 3 0
        = 0 := by
  constructor
  · rw [foldl_floodStep_preserves 2 (by decide) inputs _ hsrc]
    rfl
  · rw [foldl_floodStep_preserves 3 (by decide) inputs _ hsrc]
    rfl

theorem C6_total_length_host_order_witness :
    (∀ p ∈ ([([10, 0, 0, 4], 9)] : List (List Nat × Nat)), p.1.length = 4) ∧
      ((([([10, 0, 0, 4], 9)] : List (List Nat × Nat)).foldl
          (fun dg p => floodStep dg p.1 p.2)
          (initDatagram 77 [10, 0, 0, 2])).getD 2 0 = 28 ∧
        (([([10, 0, 0, 4], 9)] : List (List Nat × Nat)).foldl
          (fun dg p => floodStep dg p.1 p.2)
          (initDatagram 77 [10, 0, 0, 2])).getD 3 0 = 0) :=
  ⟨by decide, C6_total_length_host_order 77 [10, 0, 0, 2] [([10, 0, 0, 4], 9)]
    (by decide)⟩

/-! ## Claim C5 -/

theorem wordSum_pos (l : List Nat) (h : 0 < l.getD 0 0 % 256) : 0 < wordSum l := by
  match l with
  | [] => simp [List.getD] at h
  | [b] =>
    rw [wordSum]
    simpa [List.getD] using h
  | b0 :: b1 :: t =>
    rw [wordSum]
    simp only [List.getD_cons_zero] at h
    omega

/-- Appending an even-length positive block whose word sum is a multiple
of 0xFFFF does not change the checksum: the standard invisibility of a
correctly checksummed trailer under one-complement summation. -/
theorem checksum_append_congr (l1 l2 : List Nat) (h1 : l1.length % 2 = 0)
    (hp1 : 0 < wordSum l1) (hp2 : 0 < wordSum l2)
    (hm : wordSum l2 % 65535 = 0)
    (hsz : wordSum l1 + wordSum l2 < 4294967296) :
    checksum (l1 ++ l2) = checksum l1 := by
  rw [checksum_eq_specChecksum_of_lt _ (by rw [wordSum_append _ _ h1]; omega),
    checksum_eq_specChecksum_of_lt _ (by omega)]
  simp only [specChecksum]
  rw [wordSum_append _ _ h1]
  rw [specFold_closed _ (by omega), specFold_closed _ hp1]
  have hd : 65535 * (wordSum l2 / 65535) = wordSum l2 := by
    have := Nat.div_add_mod (wordSum l2) 65535
    omega
  omega

theorem floodPre_explicit (pid a b c d s0 s1 s2 s3 seq : Nat) :
    floodPre (initDatagram pid [a, b, c, d]) [s0, s1, s2, s3] seq =
      [69, 0, 28, 0, 48, 57, 0, 0, 255, 1, 0, 0, s0, s1, s2, s3, a, b, c, d,
       8, 0, 0, 0, pid % 65536 / 256, pid % 256,
       hton16 (seq % 65535) % 256, hton16 (seq % 65535) / 256 % 256] := rfl

theorem icmpCsumInput_explicit (pid a b c d s0 s1 s2 s3 seq : Nat) :
    icmpCsumInput (initDatagram pid [a, b, c, d]) [s0, s1, s2, s3] seq =
      [8, 0, 0, 0, pid % 65536 / 256, pid % 256,
       hton16 (seq % 65535) % 256, hton16 (seq % 65535) / 256 % 256] := rfl

set_option maxHeartbeats 2000000 in
theorem floodMid_explicit (pid a b c d s0 s1 s2 s3 seq : Nat) :
    floodMid (initDatagram pid [a, b, c, d]) [s0, s1, s2, s3] seq =
      [69, 0, 28, 0, 48, 57, 0, 0, 255, 1, 0, 0, s0, s1, s2, s3, a, b, c, d,
       8, 0,
       csum (icmpCsumInput (initDatagram pid [a, b, c, d]) [s0, s1, s2, s3] seq) % 256,
       csum (icmpCsumInput (initDatagram pid [a, b, c, d]) [s0, s1, s2, s3] seq) / 256 % 256,
       pid % 65536 / 256, pid % 256,
       hton16 (seq % 65535) % 256, hton16 (seq % 65535) / 256 % 256] := by
  rw [floodMid, floodPre_explicit]
  rfl

set_option maxHeartbeats 2000000 in
theorem floodStep_explicit (pid a b c d s0 s1 s2 s3 seq : Nat) :
    floodStep (initDatagram pid [a, b, c, d]) [s0, s1, s2, s3] seq =
      [69, 0, 28, 0, 48, 57, 0, 0, 255, 1,
       csum (ipCsumInput (initDatagram pid [a, b, c, d]) [s0, s1, s2, s3] seq) % 256,
       csum (ipCsumInput (initDatagram pid [a, b, c, d]) [s0, s1, s2, s3] seq) / 256 % 256,
       s0, s1, s2, s3, a, b, c, d,
       8, 0,
       csum (icmpCsumInput (initDatagram pid [a, b, c, d]) [s0, s1, s2, s3] seq) % 256,
       csum (icmpCsumInput (initDatagram pid [a, b, c, d]) [s0, s1, s2, s3] seq) / 256 % 256,
       pid % 65536 / 256, pid % 256,
       hton16 (seq % 65535) % 256, hton16 (seq % 65535) / 256 % 256] := by
  rw [floodStep, floodMid_explicit]
  rfl

set_option maxHeartbeats 2000000 in
theorem ipCsumInput_covers_all (pid a b c d s0 s1 s2 s3 seq : Nat) :
    ipCsumInput (initDatagram pid [a, b, c, d]) [s0, s1, s2, s3] seq =
      floodMid (initDatagram pid [a, b, c, d]) [s0, s1, s2, s3] seq := by
  rw [ipCsumInput, floodMid_explicit]
  rfl

/-- Claim C5, as stated, is false: the byte range handed to csum for the
IP checksum (icmp_flood.c:108) is the first tot_len = 28 bytes of the
datagram, the IP header followed by the whole ICMP header, not the
20-byte IP header alone. -/
theorem C5_counterexample :
    ipCsumInput (initDatagram 1234 [10, 0, 0, 9]) [10, 0, 0, 3] 7 ≠
      (floodMid (initDatagram 1234 [10, 0, 0, 9]) [10, 0, 0, 3] 7).take 20 := by
  decide

/-- Claim C5 (amended): the ICMP checksum is computed over exactly the
ICMP header's 8 bytes with its checksum field zero and written into that
field; the IP checksum is computed with its own field zero, but over the
first tot_len = 28 bytes — the IP header plus the finalized ICMP header —
rather than the IP header's bytes alone; its value nevertheless equals
the checksum over the IP header's 20 bytes alone, because the ICMP
header with its checksum in place has a word sum that is a positive
multiple of 0xFFFF and is therefore invisible to the one-complement
summation. -/
theorem C5_checksum_coverage (pid a b c d s0 s1 s2 s3 seq : Nat) :
    icmpCsumInput (initDatagram pid [a, b, c, d]) [s0, s1, s2, s3] seq =
        [8, 0, 0, 0, pid % 65536 / 256, pid % 256,
         hton16 (seq % 65535) % 256, hton16 (seq % 65535) / 256 % 256] ∧
      (floodStep (initDatagram pid [a, b, c, d]) [s0, s1, s2, s3] seq).getD 22 0 =
        csum (icmpCsumInput (initDatagram pid [a, b, c, d]) [s0, s1, s2, s3] seq) % 256 ∧
      (floodStep (initDatagram pid [a, b, c, d]) [s0, s1, s2, s3] seq).getD 23 0 =
        csum (icmpCsumInput (initDatagram pid [a, b, c, d]) [s0, s1, s2, s3] seq) / 256 % 256 ∧
      ipCsumInput (initDatagram pid [a, b, c, d]) [s0, s1, s2, s3] seq =
        floodMid (initDatagram pid [a, b, c, d]) [s0, s1, s2, s3] seq ∧
      (ipCsumInput (initDatagram pid [a, b, c, d]) [s0, s1, s2, s3] seq).length = 28 ∧
      (floodStep (initDatagram pid [a, b, c, d]) [s0, s1, s2, s3] seq).getD 10 0 =
        csum (ipCsumInput (initDatagram pid [a, b, c, d]) [s0, s1, s2, s3] seq) % 256 ∧
      (floodStep (initDatagram pid [a, b, c, d]) [s0, s1, s2, s3] seq).getD 11 0 =
        csum (ipCsumInput (initDatagram pid [a, b, c, d]) [s0, s1, s2, s3] seq) / 256 % 256 ∧
      csum (ipCsumInput (initDatagram pid [a, b, c, d]) [s0, s1, s2, s3] seq) =
        csum ((floodMid (initDatagram pid [a, b, c, d]) [s0, s1, s2, s3] seq).take 20) := by
  refine ⟨icmpCsumInput_explicit pid a b c d s0 s1 s2 s3 seq,
    by rw [floodStep_explicit]; rfl, by rw [floodStep_explicit]; rfl,
    ipCsumInput_covers_all pid a b c d s0 s1 s2 s3 seq,
    by rw [ipCsumInput_covers_all, floodMid_explicit]; rfl,
    by rw [floodStep_explicit]; rfl, by rw [floodStep_explicit]; rfl, ?_⟩
  rw [ipCsumInput_covers_all, floodMid_explicit, icmpCsumInput_explicit]
  show checksum (([69, 0, 28, 0, 48, 57, 0, 0, 255, 1, 0, 0,
      s0, s1, s2, s3, a, b, c, d] : List Nat) ++
      [8, 0,
       csum [8, 0, 0, 0, pid % 65536 / 256, pid % 256,
         hton16 (seq % 65535) % 256, hton16 (seq % 65535) / 256 % 256] % 256,
       csum [8, 0, 0, 0, pid % 65536 / 256, pid % 256,
         hton16 (seq % 65535) % 256, hton16 (seq % 65535) / 256 % 256] / 256 % 256,
       pid % 65536 / 256, pid % 256,
       hton16 (seq % 65535) % 256, hton16 (seq % 65535) / 256 % 256]) =
    checksum ([69, 0, 28, 0, 48, 57, 0, 0, 255, 1, 0, 0,
      s0, s1, s2, s3, a, b, c, d] : List Nat)
  set c1 := csum [8, 0, 0, 0, pid % 65536 / 256, pid % 256,
    hton16 (seq % 65535) % 256, hton16 (seq % 65535) / 256 % 256] with hc1
  have hl8 : ([8, 0, 0, 0, pid % 65536 / 256, pid % 256,
      hton16 (seq % 65535) % 256, hton16 (seq % 65535) / 256 % 256] : List Nat).length
      = 8 := rfl
  have hS8le := wordSum_two_mul_le ([8, 0, 0, 0, pid % 65536 / 256, pid % 256,
    hton16 (seq % 65535) % 256, hton16 (seq % 65535) / 256 % 256] : List Nat)
  rw [hl8] at hS8le
  have hS8pos : 8 ≤ wordSum ([8, 0, 0, 0, pid % 65536 / 256, pid % 256,
      hton16 (seq % 65535) % 256, hton16 (seq % 65535) / 256 % 256] : List Nat) := by
    rw [wordSum]
    omega
  have hc1le : c1 ≤ 65535 := by
    rw [hc1]
    exact checksum_le _
  have hc1eq : c1 = 65535 - specFold (wordSum ([8, 0, 0, 0, pid % 65536 / 256,
      pid % 256, hton16 (seq % 65535) % 256,
      hton16 (seq % 65535) / 256 % 256] : List Nat)) := by
    rw [hc1]
    exact checksum_eq_specChecksum_of_lt _ (by omega)
  have hfin : wordSum ([8, 0, c1 % 256, c1 / 256 % 256, pid % 65536 / 256, pid % 256,
        hton16 (seq % 65535) % 256, hton16 (seq % 65535) / 256 % 256] : List Nat) =
      wordSum ([8, 0, 0, 0, pid % 65536 / 256, pid % 256,
        hton16 (seq % 65535) % 256, hton16 (seq % 65535) / 256 % 256] : List Nat) + c1 := by
    simp only [wordSum]
    omega
  have hmod : wordSum ([8, 0, c1 % 256, c1 / 256 % 256, pid % 65536 / 256, pid % 256,
        hton16 (seq % 65535) % 256,
        hton16 (seq % 65535) / 256 % 256] : List Nat) % 65535 = 0 := by
    rw [hfin, hc1eq]
    have hcl := specFold_closed (wordSum ([8, 0, 0, 0, pid % 65536 / 256, pid % 256,
      hton16 (seq % 65535) % 256, hton16 (seq % 65535) / 256 % 256] : List Nat))
      (by omega)
    have hdm := Nat.div_add_mod (wordSum ([8, 0, 0, 0, pid % 65536 / 256, pid % 256,
      hton16 (seq % 65535) % 256, hton16 (seq % 65535) / 256 % 256] : List Nat) - 1) 65535
    have hml : (wordSum ([8, 0, 0, 0, pid % 65536 / 256, pid % 256,
        hton16 (seq % 65535) % 256, hton16 (seq % 65535) / 256 % 256] : List Nat) - 1)
        % 65535 < 65535 := Nat.mod_lt _ (by norm_num)
    omega
  have hl20 : ([69, 0, 28, 0, 48, 57, 0, 0, 255, 1, 0, 0,
      s0, s1, s2, s3, a, b, c, d] : List Nat).length = 20 := rfl
  have h20le := wordSum_two_mul_le
    ([69, 0, 28, 0, 48, 57, 0, 0, 255, 1, 0, 0, s0, s1, s2, s3, a, b, c, d] : List Nat)
  rw [hl20] at h20le
  have h20pos : 0 < wordSum ([69, 0, 28, 0, 48, 57, 0, 0, 255, 1, 0, 0,
      s0, s1, s2, s3, a, b, c, d] : List Nat) := by
    rw [wordSum]
    omega
  exact checksum_append_congr _ _ (by rw [hl20]) h20pos (by rw [hfin]; omega) hmod
    (by rw [hfin]; omega)

/-! ## ICMP timestamp request (assignment_10/icmpTimestamp.c) -/

/-- Milliseconds since midnight as computed at icmpTimestamp.c:81. -/
def msSinceMidnight (sec usec : Nat) : Nat := (sec % 86400) * 1000 + usec / 1000

/-- The 20-byte struct icmp_timestamp as main fills it
(icmpTimestamp.c:72-85), before the checksum is written: type 13, code 0,
checksum 0, id getpid() stored without htons (host order, low byte
first), sequence 1 likewise host order (bytes 1, 0), originate timestamp
htonl(milliseconds since midnight) (big-endian byte order), receive and
transmit timestamps 0. -/
def tsPacketZero (pid sec usec : Nat) : List Nat :=
  [13, 0, 0, 0,
   pid % 256, pid % 65536 / 256,
   1, 0,
   msSinceMidnight sec usec / 16777216 % 256,
   msSinceMidnight sec usec / 65536 % 256,
   msSinceMidnight sec usec / 256 % 256,
   msSinceMidnight sec usec % 256,
   0, 0, 0, 0,
   0, 0, 0, 0]

/-- The packet exactly as sent (icmpTimestamp.c:88-91): the filled
header with the checksum over the whole 20-byte struct (computed with
the checksum field zero) written into bytes 2..3. -/
def tsPacket (pid sec usec : Nat) : List Nat :=
  [13, 0,
   checksum (tsPacketZero pid sec usec) % 256,
   checksum (tsPacketZero pid sec usec) / 256 % 256,
   pid % 256, pid % 65536 / 256,
   1, 0,
   msSinceMidnight sec usec / 16777216 % 256,
   msSinceMidnight sec usec / 65536 % 256,
   msSinceMidnight sec usec / 256 % 256,
   msSinceMidnight sec usec % 256,
   0, 0, 0, 0,
   0, 0, 0, 0]

/-- Recomposing a 32-bit value from its four big-endian bytes. -/
theorem be32_recompose (M : Nat) (h : M < 4294967296) :
    M / 16777216 % 256 * 16777216 + M / 65536 % 256 * 65536 +
      M / 256 % 256 * 256 + M % 256 = M := by
  have e1 : M / 65536 = M / 256 / 256 := by
    rw [Nat.div_div_eq_div_mul]
  have e2 : M / 16777216 = M / 256 / 256 / 256 := by
    rw [Nat.div_div_eq_div_mul, Nat.div_div_eq_div_mul]
  rw [e1, e2]
  omega

/-! ## Claim C10 -/

/-- Claim C10, as stated, is false: the assignment icmp-id = getpid()
(icmpTimestamp.c:75) stores a pid_t into a u16 field, truncating the
process id modulo 2^16, so for a process id of 65537 (reachable, since
the Linux pid_max limit can be as high as 4194304) the identifier field
holds 1, not the calling process id. -/
theorem C10_counterexample :
    (tsPacket 65537 100000 567890).getD 4 0 +
        256 * (tsPacket 65537 100000 567890).getD 5 0 ≠ 65537 := by
  decide

/-- Claim C10 (amended): every encoded ICMP timestamp-request packet has
type 13, code 0, sequence 1 and identifier getpid() mod 2^16 (the u16
field truncates the process id; both id and sequence are read as the
host-order field values the C code assigns), receive and transmit
timestamps zero, and an originate timestamp field that, read in network
byte order, equals (seconds mod 86400) * 1000 + microseconds / 1000. -/
theorem C10_timestamp_request_fields (pid sec usec : Nat)
    (hu : usec < 1000000) :
    (tsPacket pid sec usec).getD 0 0 = 13 ∧
      (tsPacket pid sec usec).getD 1 0 = 0 ∧
      (tsPacket pid sec usec).getD 4 0 + 256 * (tsPacket pid sec usec).getD 5 0 =
        pid % 65536 ∧
      (tsPacket pid sec usec).getD 6 0 + 256 * (tsPacket pid sec usec).getD 7 0 = 1 ∧
      (tsPacket pid sec usec).getD 8 0 * 16777216 +
          (tsPacket pid sec usec).getD 9 0 * 65536 +
          (tsPacket pid sec usec).getD 10 0 * 256 +
          (tsPacket pid sec usec).getD 11 0 =
        (sec % 86400) * 1000 + usec / 1000 ∧
      ((tsPacket pid sec usec).getD 12 0 = 0 ∧ (tsPacket pid sec usec).getD 13 0 = 0 ∧
        (tsPacket pid sec usec).getD 14 0 = 0 ∧ (tsPacket pid sec usec).getD 15 0 = 0) ∧
      ((tsPacket pid sec usec).getD 16 0 = 0 ∧ (tsPacket pid sec usec).getD 17 0 = 0 ∧
        (tsPacket pid sec usec).getD 18 0 = 0 ∧ (tsPacket pid sec usec).getD 19 0 = 0) := by
  refine ⟨rfl, rfl, ?_, rfl, ?_, ⟨rfl, rfl, rfl, rfl⟩, ⟨rfl, rfl, rfl, rfl⟩⟩
  · show pid % 256 + 256 * (pid % 65536 / 256) = pid % 65536
    omega
  · show msSinceMidnight sec usec / 16777216 % 256 * 16777216 +
        msSinceMidnight sec usec / 65536 % 256 * 65536 +
        msSinceMidnight sec usec / 256 % 256 * 256 +
        msSinceMidnight sec usec % 256 = (sec % 86400) * 1000 + usec / 1000
    have hM : msSinceMidnight sec usec < 4294967296 := by
      simp only [msSinceMidnight]
      omega
    rw [be32_recompose (msSinceMidnight sec usec) hM]
    simp only [msSinceMidnight]

theorem C10_timestamp_request_fields_witness :
    (567890 : Nat) < 1000000 ∧
      (tsPacket 65537 100000 567890).getD 4 0 +
        256 * (tsPacket 65537 100000 567890).getD 5 0 = 65537 % 65536 :=
  ⟨by decide,
    (C10_timestamp_request_fields 65537 100000 567890 (by decide)).2.2.1⟩

end CnLab
